import Mathlib

/-!
Verification of the blob-store repository (package `ipfsblob`).

The repository exposes a `Blob` contract (`Put`/`Get`/`Del`) over two
backends: a relational (SQL) blob store — in two variants, a baseline one
using an engine auto-increment key (`interface.go`) and an evolved one
minting the key client-side (`unnamed/part_001`) — and a distributed
pinning (IPFS-cluster) backend (`ipfs.go`).

Bytes are modelled as `Nat` (each < 256 where produced by the code), blobs
and identifiers as `List Nat`, 64-bit / 32-bit machine integers as `Nat`
with explicit `% 2^64` / `% 2^32` where overflow matters.  Fallible
operations return an `Outcome`; a Go `panic` (out-of-range slice read,
close of a closed channel) is the `panicked` outcome.  The relational
engine (an external collaborator) is modelled as an association list of
rows plus a `failing` flag standing for any engine/network error.
-/

namespace IpfsBlob

/-- Error shape of the blob operations, following the Go code:
`ErrNotFound{K}` from `interface.go`, any engine error surfaced as a
database failure, and `fmt.Errorf`-style plain message errors. -/
inductive BlobErr where
  | notFound (k : List Nat)
  | dbFail (msg : String)
  | genericMsg (msg : String)
deriving DecidableEq, Repr

/-- Result of a fallible operation; `panicked` models a Go runtime panic. -/
inductive Outcome (α : Type) where
  | ok (a : α)
  | err (e : BlobErr)
  | panicked
deriving DecidableEq, Repr

/-! ### Little-endian byte codec (`encoding/binary`) -/

/-- `binary.LittleEndian.PutUint32`: the 4 little-endian bytes of `x`
(Go truncates to the low 32 bits via the `uint32` argument type). -/
def putUint32LE (x : Nat) : List Nat :=
  [x % 256, x / 2^8 % 256, x / 2^16 % 256, x / 2^24 % 256]

/-- `binary.LittleEndian.PutUint64`: the 8 little-endian bytes of `x`. -/
def putUint64LE (x : Nat) : List Nat :=
  [x % 256, x / 2^8 % 256, x / 2^16 % 256, x / 2^24 % 256,
   x / 2^32 % 256, x / 2^40 % 256, x / 2^48 % 256, x / 2^56 % 256]

/-- `binary.LittleEndian.Uint64`: reads the first 8 bytes; Go panics when
the slice is shorter than 8 bytes, modelled by `none`. -/
def leUint64 (b : List Nat) : Option Nat :=
  match b with
  | b0 :: b1 :: b2 :: b3 :: b4 :: b5 :: b6 :: b7 :: _ =>
      some (b0 + b1 * 2^8 + b2 * 2^16 + b3 * 2^24 +
            b4 * 2^32 + b5 * 2^40 + b6 * 2^48 + b7 * 2^56)
  | _ => none

/-- Total variant of `leUint64` for call sites where the slice is
statically 8 bytes long (the `Put` implementations). -/
def leUint64D (b : List Nat) : Nat := (leUint64 b).getD 0

/-! ### The relational engine collaborator

The `kv` table (`k BIGINT primary key, v LONGBLOB`) is modelled as an
association list of rows; key comparison is by the 64-bit pattern.  A
`failing` flag stands for an arbitrary engine/network failure of the next
statement (the code treats any such error as fatal to the single call). -/

/-- First row whose key matches — the `where k = ?` exact-match query of
the engine (the primary-key constraint keeps keys unique). -/
def lookupRow : List (Nat × List Nat) → Nat → Option (List Nat)
  | [], _ => none
  | (k, v) :: rest, key => if k = key then some v else lookupRow rest key

/-! ### Timeout scope (`Config.timeoutCtx`, identical in all three files) -/

/-- An execution scope: `context.Background()` (never expires) or
`context.WithTimeout(context.Background(), d)` (auto-cancels once `d`
nanoseconds have elapsed from scope creation). -/
inductive Ctx where
  | background
  | withTimeout (d : Nat)
deriving DecidableEq, Repr

/-- The instant, measured from scope creation, at which the scope
auto-cancels; `none` means it never expires. -/
def Ctx.expiry : Ctx → Option Nat
  | background => none
  | withTimeout d => some d

/-! ### Baseline relational variant (`interface.go`): engine-assigned key -/

namespace V1

/-- Baseline `Config`: the per-operation timeout in nanoseconds (0 means
no deadline); the open database handle is modelled at the call sites. -/
structure Config where
  DefaultTimeout : Nat
deriving DecidableEq, Repr

/-- `Config.timeoutCtx` (baseline file): zero timeout yields the
background context with the no-op release `nop`; otherwise a timed scope
with a real cancel function.  The `Bool` records whether the returned
release function actually cancels the scope. -/
def Config.timeoutCtx (cfg : Config) : Ctx × Bool :=
  if cfg.DefaultTimeout = 0 then (.background, false)
  else (.withTimeout cfg.DefaultTimeout, true)

/-- Database state seen by the baseline store: the `kv` rows, the
auto-increment cursor of the engine, and the engine-failure flag.
`auto_increment` starts at 1 on a fresh table. -/
structure DBState where
  rows : List (Nat × List Nat)
  nextAuto : Nat
  failing : Bool
deriving DecidableEq, Repr

/-- A fresh `kv` table right after `SetupDB`. -/
def freshDB : DBState := { rows := [], nextAuto := 1, failing := false }

/-- `sqlBlob.Put` (baseline): `insert into kv (v) values (?)`; the engine
assigns the auto-increment key, `LastInsertId` reads it back, and the key
is packed little-endian into 8 bytes. -/
def sqlPut (s : DBState) (data : List Nat) : DBState × Outcome (List Nat) :=
  if s.failing then (s, .err (.dbFail "exec failed")) else
  let lastId := s.nextAuto
  let s' : DBState :=
    { rows := s.rows ++ [(lastId, data)], nextAuto := s.nextAuto + 1,
      failing := s.failing }
  (s', .ok (putUint64LE lastId))

/-- `sqlBlob.Get` (baseline): unconditional 8-byte little-endian decode
(panics on shorter input), `select v from kv where k = ?`; zero rows give
`ErrNotFound{K: k}`. -/
def sqlGet (s : DBState) (k : List Nat) : Outcome (List Nat) :=
  match leUint64 k with
  | none => .panicked
  | some key =>
      if s.failing then .err (.dbFail "query failed") else
      match lookupRow s.rows key with
      | none => .err (.notFound k)
      | some data => .ok data

/-- `sqlBlob.Del` (baseline): unconditional 8-byte little-endian decode
(panics on shorter input), `delete from kv where k = ?`; a delete matching
zero rows is still a success. -/
def sqlDel (s : DBState) (k : List Nat) : DBState × Outcome Unit :=
  match leUint64 k with
  | none => (s, .panicked)
  | some key =>
      if s.failing then (s, .err (.dbFail "exec failed")) else
      ({ s with rows := s.rows.filter (fun p => p.1 ≠ key) }, .ok ())

end V1

/-! ### `SetupDB` (`interface.go`) and its engine collaborator -/

namespace Setup

/-- Schema-level state of the database: whether the `kv` table exists. -/
structure SchemaState where
  kvExists : Bool
deriving DecidableEq, Repr

/-- Engine behaviour of `select k from kv limit 1`: succeeds when the
table exists, otherwise fails with the table-missing error of the engine
(MySQL/MariaDB error 1146, whose message the driver renders with the
text `Error 1146`). -/
def probeKVErr (s : SchemaState) : Option String :=
  if s.kvExists then none
  else some "Error 1146: Table kv does not exist"

/-- `strings.Index(msg, "Error 1146") != -1`: substring containment. -/
def hasErr1146 (msg : String) : Bool :=
  decide (("Error 1146").toList <:+: msg.toList)

/-- `SetupDB`: probes the `kv` table; a successful probe means the table
already exists and yields the explicit `already exists / db is setup`
error without touching the schema; a probe failure other than error 1146
is surfaced as unexpected; the table-missing failure leads to
`create table kv ...`. -/
def SetupDB (s : SchemaState) : SchemaState × Except String Unit :=
  match probeKVErr s with
  | none => (s, .error "table kv already exists (db is setup)")
  | some msg =>
      if !hasErr1146 msg then
        (s, .error ("unexpected error querying kv table: " ++ msg))
      else
        ({ s with kvExists := true }, .ok ())

end Setup

/-! ### Evolved relational variant (`unnamed/part_001`): client-minted key -/

namespace V2

/-- Evolved `Config`: the timeout and the 32-bit per-process-start
`ServerExecID`; the database handle is modelled at the call sites. -/
structure Config where
  DefaultTimeout : Nat
  ServerExecID : Nat
deriving DecidableEq, Repr

/-- `Config.timeoutCtx` (evolved file) — same branch as the baseline. -/
def Config.timeoutCtx (cfg : Config) : Ctx × Bool :=
  if cfg.DefaultTimeout = 0 then (.background, false)
  else (.withTimeout cfg.DefaultTimeout, true)

/-- Database state seen by the evolved store (no auto-increment used). -/
structure DBState where
  rows : List (Nat × List Nat)
  failing : Bool
deriving DecidableEq, Repr

/-- `sqlBlob` (evolved): configuration plus the atomic `lastID` counter,
the only in-memory mutable shared state. `uint32` arithmetic is `% 2^32`. -/
structure Store where
  execID : Nat
  lastID : Nat
deriving DecidableEq, Repr

/-- `new(cfg)`: the evolved constructor just captures the config; the
counter starts at zero. -/
def mkStore (cfg : Config) : Store := { execID := cfg.ServerExecID, lastID := 0 }

/-- Key bytes minted by the evolved `Put`: `ServerExecID` packed
little-endian into bytes 0..3, the counter into bytes 4..7. -/
def mintID (execID counter : Nat) : List Nat :=
  putUint32LE execID ++ putUint32LE counter

/-- `sqlBlob.Put` (evolved): `id := atomic.AddUint32(&s.lastID, 1)` (the
increment happens before the insert and is never rolled back), the key
bytes are minted from `ServerExecID` and `id`, `key` re-decodes them as a
little-endian 64-bit value, and `insert into kv (k, v) values (?, ?)`
runs with that explicit key (the engine rejects a duplicate primary key).
Concurrent calls are modelled by their linearization: the atomic add gives
each call a distinct successor of the counter. -/
def sqlPut (st : Store) (db : DBState) (data : List Nat) :
    Store × DBState × Outcome (List Nat) :=
  let id := (st.lastID + 1) % 2^32
  let st' : Store := { st with lastID := id }
  let keyBytes := mintID st.execID id
  let key := leUint64D keyBytes
  if db.failing then (st', db, .err (.dbFail "exec failed"))
  else if (lookupRow db.rows key).isSome then
    (st', db, .err (.dbFail "Error 1062: duplicate entry"))
  else (st', { db with rows := db.rows ++ [(key, data)] }, .ok keyBytes)

/-- `sqlBlob.Get` (evolved): unconditional 8-byte little-endian decode
(panics on shorter input), query by key; zero rows give the plain error
`no results returned` (not an `ErrNotFound`). -/
def sqlGet (db : DBState) (scid : List Nat) : Outcome (List Nat) :=
  match leUint64 scid with
  | none => .panicked
  | some key =>
      if db.failing then .err (.dbFail "query failed") else
      match lookupRow db.rows key with
      | none => .err (.genericMsg "no results returned")
      | some data => .ok data

/-- `sqlBlob.Del` (evolved): unimplemented; returns the error `not yet`
for every identifier without ever decoding it. -/
def sqlDel (_ : List Nat) : Outcome Unit := .err (.genericMsg "not yet")

/-- The counter value after the n-th `atomic.AddUint32(&s.lastID, 1)` of
a store whose counter started at 0 (`uint32` wrap-around included). -/
def lastIDAfter : Nat → Nat
  | 0 => 0
  | n + 1 => (lastIDAfter n + 1) % 2^32

/-- The identifier minted by the n-th `Put` of a process (counting from
1): the counter value used by that call, packed after the exec id. -/
def nthPutID (execID n : Nat) : List Nat := mintID execID (lastIDAfter n)

/-- A sequence of `Put` calls on one store (concurrent calls taken in
their linearization order): final store and database states, plus the
identifiers yielded by the successful calls, in order. -/
def putSeqOut (st : Store) (db : DBState) :
    List (List Nat) → Store × DBState × List (List Nat)
  | [] => (st, db, [])
  | data :: rest =>
      let r := sqlPut st db data
      let t := putSeqOut r.1 r.2.1 rest
      match r.2.2 with
      | .ok id => (t.1, t.2.1, id :: t.2.2)
      | _ => (t.1, t.2.1, t.2.2)

end V2

/-- Whether an outcome is an `ErrNotFound` (structural match on the error
kind, as `ErrNotFound.Is` does). -/
def isNotFoundErr : Outcome (List Nat) → Bool
  | .err (.notFound _) => true
  | _ => false

/-- Whether an outcome is a success. -/
def Outcome.isOk : Outcome α → Bool
  | .ok _ => true
  | _ => false

/-- Whether an outcome is a runtime panic. -/
def Outcome.isPanicked : Outcome α → Bool
  | .panicked => true
  | _ => false

/-! ### Distributed pinning backend (`ipfs.go`) -/

namespace IPFS

/-- Pinning `Config`: timeout, staging directory and pin options. -/
structure Config where
  DefaultTimeout : Nat
  TempDir : String
  ReplFactorMin : Int
  ReplFactorMax : Int
  Local : Bool
deriving DecidableEq, Repr

/-- `Config.timeoutCtx` (pinning file) — same branch as the others. -/
def Config.timeoutCtx (cfg : Config) : Ctx × Bool :=
  if cfg.DefaultTimeout = 0 then (.background, false)
  else (.withTimeout cfg.DefaultTimeout, true)

/-- The add-progress event of the cluster API; only the content
identifier field is consumed by `Put` (a content id modelled as `Nat`). -/
structure AddedOutput where
  cid : Nat
deriving DecidableEq, Repr

/-- State of the background listener of `ipfsBlob.Put`: the recorded
content id (`var id *cid.Cid`), whether the `gotCid` latch channel has
been closed, and whether the goroutine has panicked. -/
structure ListenerState where
  id : Option Nat
  gotCidClosed : Bool
  panicked : Bool
deriving DecidableEq, Repr

/-- One iteration of the drain loop on a delivery from `addedChan`
(a `nil` pointer or an event): `nil` is skipped via `continue`; a non-nil
event has its cid recorded and then `close(gotCid)` runs — closing an
already-closed channel is a Go runtime panic.  The loop body has no
`return` after the close, so a later non-nil event reaches the close
again. -/
def listenerStep (st : ListenerState) (ev : Option AddedOutput) : ListenerState :=
  if st.panicked then st else
  match ev with
  | none => st
  | some added =>
      if st.gotCidClosed then
        { id := some added.cid, gotCidClosed := true, panicked := true }
      else
        { id := some added.cid, gotCidClosed := true, panicked := false }

/-- Listener state at the start of `Put`: no id, latch open. -/
def listenerInit : ListenerState :=
  { id := none, gotCidClosed := false, panicked := false }

/-- The listener after draining a finite sequence of deliveries in the
order the cluster sent them. -/
def listenerRun (evs : List (Option AddedOutput)) : ListenerState :=
  evs.foldl listenerStep listenerInit

/-- Number of non-nil events in a delivery sequence. -/
def countSome (evs : List (Option AddedOutput)) : Nat :=
  (evs.filter Option.isSome).length

/-- The first non-nil event of a delivery sequence, if any. -/
def firstSome : List (Option AddedOutput) → Option AddedOutput
  | [] => none
  | none :: rest => firstSome rest
  | some a :: _ => some a

/-- `ipfsBlob.Del`: unimplemented; fails with `not yet` unconditionally. -/
def Del (_ : List Nat) : Outcome Unit := .err (.genericMsg "not yet")

end IPFS

/-! ## Theorems -/

theorem putUint32LE_length (x : Nat) : (putUint32LE x).length = 4 := rfl

theorem putUint64LE_length (x : Nat) : (putUint64LE x).length = 8 := rfl

/-- Decoding the concatenation of two 4-byte little-endian words yields
the low word in the low 32 bits and the high word in the high 32 bits. -/
theorem leUint64_append_putUint32LE (a b : Nat) :
    leUint64 (putUint32LE a ++ putUint32LE b) =
      some (a % 2^32 + b % 2^32 * 2^32) := by
  simp only [putUint32LE, List.cons_append, List.nil_append, leUint64]
  congr 1
  omega

/-- Round trip of the 8-byte little-endian codec. -/
theorem leUint64_putUint64LE (x : Nat) :
    leUint64 (putUint64LE x) = some (x % 2^64) := by
  simp only [putUint64LE, leUint64]
  congr 1
  omega

/-- `leUint64` succeeds exactly on lists of length at least 8. -/
theorem leUint64_isSome_iff (b : List Nat) :
    (leUint64 b).isSome = true ↔ 8 ≤ b.length := by
  match b with
  | [] => simp [leUint64]
  | [b0] => simp [leUint64]
  | [b0, b1] => simp [leUint64]
  | [b0, b1, b2] => simp [leUint64]
  | [b0, b1, b2, b3] => simp [leUint64]
  | [b0, b1, b2, b3, b4] => simp [leUint64]
  | [b0, b1, b2, b3, b4, b5] => simp [leUint64]
  | [b0, b1, b2, b3, b4, b5, b6] => simp [leUint64]
  | b0 :: b1 :: b2 :: b3 :: b4 :: b5 :: b6 :: b7 :: rest =>
      simp [leUint64]

/-- Two equal 4-byte encodings force equal values modulo `2^32`. -/
theorem putUint32LE_inj_mod (a b : Nat)
    (h : putUint32LE a = putUint32LE b) : a % 2^32 = b % 2^32 := by
  simp only [putUint32LE, List.cons.injEq, and_true] at h
  omega

theorem lookupRow_append_self (rows : List (Nat × List Nat)) (key : Nat)
    (v : List Nat) (h : lookupRow rows key = none) :
    lookupRow (rows ++ [(key, v)]) key = some v := by
  induction rows with
  | nil => simp [lookupRow]
  | cons p rest ih =>
      simp only [lookupRow] at h ⊢
      by_cases hk : p.1 = key
      · simp [hk] at h
      · cases p
        simp_all [lookupRow]

theorem lookupRow_filter_ne (rows : List (Nat × List Nat)) (key : Nat) :
    lookupRow (rows.filter (fun p => p.1 ≠ key)) key = none := by
  induction rows with
  | nil => simp [lookupRow]
  | cons p rest ih =>
      by_cases hk : p.1 = key
      · simpa [List.filter, hk] using ih
      · simpa [List.filter, hk, lookupRow] using ih

theorem lastIDAfter_eq_mod (n : Nat) : V2.lastIDAfter n = n % 2^32 := by
  induction n with
  | zero => rfl
  | succ n ih =>
      simp only [V2.lastIDAfter, ih]
      omega

theorem leUint64_eq_none_of_short (b : List Nat) (h : b.length < 8) :
    leUint64 b = none := by
  cases hb : leUint64 b with
  | none => rfl
  | some v =>
      have h8 := (leUint64_isSome_iff b).mp (by simp [hb])
      omega

theorem leUint64_isSome_of_long (b : List Nat) (h : 8 ≤ b.length) :
    ∃ v, leUint64 b = some v := by
  have := (leUint64_isSome_iff b).mpr h
  cases hb : leUint64 b with
  | none => simp [hb] at this
  | some v => exact ⟨v, rfl⟩

theorem lookupRow_append_of_some (rows l : List (Nat × List Nat))
    (key : Nat) (v : List Nat) (h : lookupRow rows key = some v) :
    lookupRow (rows ++ l) key = some v := by
  induction rows with
  | nil => simp [lookupRow] at h
  | cons p rest ih =>
      cases p with
      | mk pk pv =>
          simp only [lookupRow, List.cons_append] at h ⊢
          by_cases hk : pk = key
          · simpa [hk] using h
          · simp only [hk, if_false] at h ⊢
            exact ih h

theorem lookupRow_eq_none_of_forall_ne (rows : List (Nat × List Nat))
    (key : Nat) (h : ∀ p ∈ rows, p.1 ≠ key) : lookupRow rows key = none := by
  induction rows with
  | nil => rfl
  | cons p rest ih =>
      cases p with
      | mk pk pv =>
          have hne : pk ≠ key := h (pk, pv) (by simp)
          simp only [lookupRow, hne, if_false]
          exact ih (fun q hq => h q (by simp [hq]))

theorem leUint64D_mintID (e c : Nat) :
    leUint64D (V2.mintID e c) = e % 2^32 + c % 2^32 * 2^32 := by
  simp [leUint64D, V2.mintID, leUint64_append_putUint32LE]

theorem mintID_length (e c : Nat) : (V2.mintID e c).length = 8 := rfl

/-- Identifiers minted under distinct 32-bit exec ids differ, whatever
the counters are: the low four bytes already differ. -/
theorem mintID_ne_of_execID_ne (e1 e2 c1 c2 : Nat)
    (h1 : e1 < 2^32) (h2 : e2 < 2^32) (hne : e1 ≠ e2) :
    V2.mintID e1 c1 ≠ V2.mintID e2 c2 := by
  intro heq
  simp only [V2.mintID, putUint32LE, List.cons_append, List.nil_append,
    List.cons.injEq, and_true] at heq
  omega

/-- The store state after the evolved `Put`: the exec id is untouched and
the counter has advanced exactly once, on every control path. -/
theorem v2_sqlPut_fst (st : V2.Store) (db : V2.DBState) (data : List Nat) :
    (V2.sqlPut st db data).1 =
      { execID := st.execID, lastID := (st.lastID + 1) % 2^32 } := by
  unfold V2.sqlPut
  by_cases hf : db.failing <;> simp [hf] <;> split <;> rfl

/-- The evolved `Put` never panics. -/
theorem v2_sqlPut_ne_panicked (st : V2.Store) (db : V2.DBState)
    (data : List Nat) : (V2.sqlPut st db data).2.2 ≠ .panicked := by
  unfold V2.sqlPut
  by_cases hf : db.failing <;> simp [hf] <;> split <;> simp

/-- Full computation of a healthy, collision-free evolved `Put`. -/
theorem v2_sqlPut_eq_of (st : V2.Store) (db : V2.DBState) (data : List Nat)
    (hf : ¬db.failing = true)
    (hd : ¬(lookupRow db.rows
        (leUint64D (V2.mintID st.execID ((st.lastID + 1) % 2^32)))).isSome = true) :
    V2.sqlPut st db data =
      ({ execID := st.execID, lastID := (st.lastID + 1) % 2^32 },
       { rows := db.rows ++
           [(leUint64D (V2.mintID st.execID ((st.lastID + 1) % 2^32)), data)],
         failing := db.failing },
       .ok (V2.mintID st.execID ((st.lastID + 1) % 2^32))) := by
  unfold V2.sqlPut
  rw [if_neg hf, if_neg hd]

/-- Characterization of a successful evolved `Put`: the returned
identifier is the minted one, the engine was healthy, the minted key was
fresh, and the row was appended. -/
theorem v2_sqlPut_ok (st : V2.Store) (db : V2.DBState) (data : List Nat)
    (id : List Nat) (h : (V2.sqlPut st db data).2.2 = .ok id) :
    id = V2.mintID st.execID ((st.lastID + 1) % 2^32) ∧
    db.failing = false ∧
    lookupRow db.rows (leUint64D id) = none ∧
    (V2.sqlPut st db data).2.1.rows = db.rows ++ [(leUint64D id, data)] ∧
    (V2.sqlPut st db data).2.1.failing = false := by
  by_cases hf : db.failing = true
  · unfold V2.sqlPut at h
    rw [if_pos hf] at h
    simp at h
  · by_cases hd : (lookupRow db.rows
        (leUint64D (V2.mintID st.execID ((st.lastID + 1) % 2^32)))).isSome = true
    · unfold V2.sqlPut at h
      rw [if_neg hf, if_pos hd] at h
      simp at h
    · have hcomp := v2_sqlPut_eq_of st db data hf hd
      rw [hcomp] at h
      simp only at h
      cases h
      refine ⟨rfl, by simpa using hf, ?_, ?_, ?_⟩
      · cases hlk : lookupRow db.rows
            (leUint64D (V2.mintID st.execID ((st.lastID + 1) % 2^32))) with
        | none => rfl
        | some v => rw [hlk] at hd; simp at hd
      · rw [hcomp]
      · rw [hcomp]
        simpa using hf

/-- A failed evolved `Put` leaves the database untouched. -/
theorem v2_sqlPut_err_db (st : V2.Store) (db : V2.DBState) (data : List Nat)
    (e : BlobErr) (h : (V2.sqlPut st db data).2.2 = .err e) :
    (V2.sqlPut st db data).2.1 = db := by
  by_cases hf : db.failing = true
  · unfold V2.sqlPut
    rw [if_pos hf]
  · by_cases hd : (lookupRow db.rows
        (leUint64D (V2.mintID st.execID ((st.lastID + 1) % 2^32)))).isSome = true
    · unfold V2.sqlPut
      rw [if_neg hf, if_pos hd]
    · rw [v2_sqlPut_eq_of st db data hf hd] at h
      simp at h

/-- Unfolding of `putSeqOut` on a first call: the final store and
database do not depend on whether the first call succeeded. -/
theorem v2_putSeqOut_cons_state (st : V2.Store) (db : V2.DBState)
    (d : List Nat) (rest : List (List Nat)) :
    (V2.putSeqOut st db (d :: rest)).1 =
      (V2.putSeqOut (V2.sqlPut st db d).1 (V2.sqlPut st db d).2.1 rest).1 ∧
    (V2.putSeqOut st db (d :: rest)).2.1 =
      (V2.putSeqOut (V2.sqlPut st db d).1 (V2.sqlPut st db d).2.1 rest).2.1 := by
  cases hr : (V2.sqlPut st db d).2.2 <;> simp [V2.putSeqOut, hr]

/-- Unfolding of the yielded-identifier list of `putSeqOut` on a
successful first call. -/
theorem v2_putSeqOut_cons_ids_ok (st : V2.Store) (db : V2.DBState)
    (d : List Nat) (rest : List (List Nat)) (id : List Nat)
    (hr : (V2.sqlPut st db d).2.2 = .ok id) :
    (V2.putSeqOut st db (d :: rest)).2.2 =
      id :: (V2.putSeqOut (V2.sqlPut st db d).1 (V2.sqlPut st db d).2.1 rest).2.2 := by
  simp [V2.putSeqOut, hr]

/-- Unfolding of the yielded-identifier list of `putSeqOut` on a failed
first call. -/
theorem v2_putSeqOut_cons_ids_err (st : V2.Store) (db : V2.DBState)
    (d : List Nat) (rest : List (List Nat)) (e : BlobErr)
    (hr : (V2.sqlPut st db d).2.2 = .err e) :
    (V2.putSeqOut st db (d :: rest)).2.2 =
      (V2.putSeqOut (V2.sqlPut st db d).1 (V2.sqlPut st db d).2.1 rest).2.2 := by
  simp [V2.putSeqOut, hr]

/-- The final store of a `Put` sequence: the exec id is preserved and the
counter has advanced once per call, wrapping as a `uint32`. -/
theorem v2_putSeqOut_fst (datas : List (List Nat)) :
    ∀ (st : V2.Store) (db : V2.DBState), st.lastID < 2^32 →
      (V2.putSeqOut st db datas).1.execID = st.execID ∧
      (V2.putSeqOut st db datas).1.lastID =
        (st.lastID + datas.length) % 2^32 := by
  induction datas with
  | nil =>
      intro st db hst
      constructor
      · rfl
      · simp only [V2.putSeqOut, List.length_nil]
        omega
  | cons d rest ih =>
      intro st db hst
      obtain ⟨hc1, _⟩ := v2_putSeqOut_cons_state st db d rest
      rw [hc1]
      have hr1 : (V2.sqlPut st db d).1 =
          { execID := st.execID, lastID := (st.lastID + 1) % 2^32 } :=
        v2_sqlPut_fst st db d
      rw [hr1]
      have hlt : (st.lastID + 1) % 2^32 < 2^32 := Nat.mod_lt _ (by norm_num)
      obtain ⟨he, hl⟩ :=
        ih { execID := st.execID, lastID := (st.lastID + 1) % 2^32 }
          (V2.sqlPut st db d).2.1 hlt
      refine ⟨he, ?_⟩
      rw [hl]
      simp only [List.length_cons]
      omega

/-- Invariant of a `Put` sequence: no yielded identifier decodes to a key
already present in the starting database (each successful insert needed a
fresh key), and the yielded identifiers are pairwise distinct (each
successful insert planted its key, and rows are never removed). -/
theorem v2_putSeqOut_ids_fresh (datas : List (List Nat)) :
    ∀ (st : V2.Store) (db : V2.DBState),
      (∀ k, (lookupRow db.rows k).isSome = true →
        ∀ id ∈ (V2.putSeqOut st db datas).2.2, leUint64D id ≠ k) ∧
      List.Pairwise (fun a b => a ≠ b) (V2.putSeqOut st db datas).2.2 := by
  induction datas with
  | nil =>
      intro st db
      simp [V2.putSeqOut]
  | cons d rest ih =>
      intro st db
      cases hr : (V2.sqlPut st db d).2.2 with
      | panicked => exact absurd hr (v2_sqlPut_ne_panicked st db d)
      | err e =>
          have hids := v2_putSeqOut_cons_ids_err st db d rest e hr
          have hdb := v2_sqlPut_err_db st db d e hr
          rw [hids, hdb]
          exact ih (V2.sqlPut st db d).1 db
      | ok id =>
          obtain ⟨hid, hfl, hfresh, hrows, hfail⟩ := v2_sqlPut_ok st db d id hr
          have hids := v2_putSeqOut_cons_ids_ok st db d rest id hr
          obtain ⟨ih1, ih2⟩ := ih (V2.sqlPut st db d).1 (V2.sqlPut st db d).2.1
          have hkey : (lookupRow (V2.sqlPut st db d).2.1.rows (leUint64D id)).isSome
              = true := by
            rw [hrows, lookupRow_append_self db.rows (leUint64D id) d hfresh]
            rfl
          constructor
          · intro k hk id₀ hid₀
            rw [hids] at hid₀
            rcases List.mem_cons.mp hid₀ with h₀ | h₀
            · subst h₀
              intro heq
              rw [heq] at hfresh
              rw [hfresh] at hk
              simp at hk
            · obtain ⟨v, hv⟩ := Option.isSome_iff_exists.mp hk
              have hk2 : (lookupRow (V2.sqlPut st db d).2.1.rows k).isSome = true := by
                rw [hrows, lookupRow_append_of_some db.rows _ k v hv]
                rfl
              exact ih1 k hk2 id₀ h₀
          · rw [hids]
            refine List.Pairwise.cons ?_ ih2
            intro id₀ hid₀ heq
            have := ih1 (leUint64D id) hkey id₀ hid₀
            rw [heq] at this
            exact this rfl

/-- After a `Put` consuming counter value 1 and a further chain of
`2^32 - 1` `Put` calls, the next `Put` consumes counter value 1 again:
the `uint32` counter has wrapped. -/
theorem v2_wrap_consumes_again (st : V2.Store) (db : V2.DBState)
    (datas : List (List Nat)) (d2 : List Nat)
    (hst : st.lastID = 1) (hlen : datas.length = 2^32 - 1) :
    (V2.sqlPut (V2.putSeqOut st db datas).1 (V2.putSeqOut st db datas).2.1
      d2).1.lastID = 1 := by
  obtain ⟨-, hsl⟩ := v2_putSeqOut_fst datas st db (by rw [hst]; norm_num)
  have hfin := congrArg V2.Store.lastID
    (v2_sqlPut_fst (V2.putSeqOut st db datas).1 (V2.putSeqOut st db datas).2.1 d2)
  dsimp only at hfin
  rw [hfin, hsl, hst, hlen]
  norm_num

/-- A `nil` event never changes the listener state (the `continue`). -/
theorem listenerStep_none (st : IPFS.ListenerState) :
    IPFS.listenerStep st none = st := by
  unfold IPFS.listenerStep
  split <;> rfl

theorem listener_foldl_all_none (evs : List (Option IPFS.AddedOutput))
    (h : ∀ e ∈ evs, e = none) :
    ∀ st, evs.foldl IPFS.listenerStep st = st := by
  induction evs with
  | nil => intro st; rfl
  | cons e rest ih =>
      intro st
      have he : e = none := h e (by simp)
      subst he
      simp only [List.foldl_cons, listenerStep_none]
      exact ih (fun e he => h e (by simp [he])) st

theorem all_none_of_countSome_zero (evs : List (Option IPFS.AddedOutput))
    (h : IPFS.countSome evs = 0) : ∀ e ∈ evs, e = none := by
  unfold IPFS.countSome at h
  rw [List.length_eq_zero, List.filter_eq_nil_iff] at h
  intro e he
  cases e with
  | none => rfl
  | some a => exact absurd (by simp : Option.isSome (some a) = true) (h _ he)

theorem countSome_cons_none (rest : List (Option IPFS.AddedOutput)) :
    IPFS.countSome (none :: rest) = IPFS.countSome rest := by
  simp [IPFS.countSome]

theorem countSome_cons_some (a : IPFS.AddedOutput)
    (rest : List (Option IPFS.AddedOutput)) :
    IPFS.countSome (some a :: rest) = IPFS.countSome rest + 1 := by
  simp [IPFS.countSome]

/-! ## Claims -/

/-- C8: `Del` on the pinning backend unconditionally returns the
unimplemented (`not yet`) error for every identifier; it never
succeeds. -/
theorem C8_pinning_del_always_fails (k : List Nat) :
    IPFS.Del k = .err (.genericMsg "not yet") ∧ (IPFS.Del k).isOk = false := by
  exact ⟨rfl, rfl⟩

/-- C7: the timeout scope constructor of each of the three files returns
a never-expiring scope with a no-op release when the configured duration
is zero, and otherwise a scope that auto-cancels `d` after its creation,
released by a real cancel function. -/
theorem C7_timeout_scope (c1 : V1.Config) (c2 : V2.Config) (c3 : IPFS.Config) :
    ((c1.DefaultTimeout = 0 →
        c1.timeoutCtx = (.background, false) ∧ Ctx.expiry c1.timeoutCtx.1 = none) ∧
     (c1.DefaultTimeout ≠ 0 →
        Ctx.expiry c1.timeoutCtx.1 = some c1.DefaultTimeout ∧ c1.timeoutCtx.2 = true)) ∧
    ((c2.DefaultTimeout = 0 →
        c2.timeoutCtx = (.background, false) ∧ Ctx.expiry c2.timeoutCtx.1 = none) ∧
     (c2.DefaultTimeout ≠ 0 →
        Ctx.expiry c2.timeoutCtx.1 = some c2.DefaultTimeout ∧ c2.timeoutCtx.2 = true)) ∧
    ((c3.DefaultTimeout = 0 →
        c3.timeoutCtx = (.background, false) ∧ Ctx.expiry c3.timeoutCtx.1 = none) ∧
     (c3.DefaultTimeout ≠ 0 →
        Ctx.expiry c3.timeoutCtx.1 = some c3.DefaultTimeout ∧ c3.timeoutCtx.2 = true)) := by
  refine ⟨⟨?_, ?_⟩, ⟨?_, ?_⟩, ⟨?_, ?_⟩⟩ <;> intro h <;>
    simp [V1.Config.timeoutCtx, V2.Config.timeoutCtx, IPFS.Config.timeoutCtx,
      Ctx.expiry, h]

/-- Witness for C7 at concrete configurations. -/
theorem C7_timeout_scope_witness :
    V1.Config.timeoutCtx { DefaultTimeout := 0 } = (.background, false) ∧
    Ctx.expiry (V2.Config.timeoutCtx { DefaultTimeout := 7, ServerExecID := 9 }).1 =
      some 7 ∧
    Ctx.expiry (IPFS.Config.timeoutCtx
      { DefaultTimeout := 0, TempDir := "/tmp", ReplFactorMin := 1,
        ReplFactorMax := 1, Local := true }).1 = none := by
  have h := C7_timeout_scope { DefaultTimeout := 0 }
    { DefaultTimeout := 7, ServerExecID := 9 }
    { DefaultTimeout := 0, TempDir := "/tmp", ReplFactorMin := 1,
      ReplFactorMax := 1, Local := true }
  exact ⟨(h.1.1 rfl).1, (h.2.1.2 (by decide)).1, (h.2.2.1 rfl).2⟩

/-- C5: `SetupDB` on a fresh database (where the probe of the `kv` table
fails with the table-missing error of the engine) creates the table and
succeeds; on an already-set-up database (successful probe) it returns the
explicit `already exists / db is setup` error and leaves the schema
untouched. -/
theorem C5_setupdb_guard (s : Setup.SchemaState) :
    (s.kvExists = false →
      Setup.SetupDB s = ({ kvExists := true }, .ok ())) ∧
    (s.kvExists = true →
      Setup.SetupDB s = (s, .error "table kv already exists (db is setup)")) := by
  cases s with
  | mk kv =>
      constructor
      · intro h
        simp only at h
        subst h
        rfl
      · intro h
        simp only at h
        subst h
        rfl

/-- Witness for C5: a fresh database and an already-set-up one. -/
theorem C5_setupdb_guard_witness :
    Setup.SetupDB { kvExists := false } = ({ kvExists := true }, .ok ()) ∧
    Setup.SetupDB { kvExists := true } =
      ({ kvExists := true }, .error "table kv already exists (db is setup)") :=
  ⟨(C5_setupdb_guard { kvExists := false }).1 rfl,
   (C5_setupdb_guard { kvExists := true }).2 rfl⟩

/-- C9 counterexample: `Del` of the evolved relational variant never
decodes the identifier: on the empty identifier (shorter than 8 bytes)
it returns the unimplemented error instead of panicking, refuting the
claim for that operation. -/
theorem C9_counterexample :
    V2.sqlDel [] = .err (.genericMsg "not yet") ∧
    (V2.sqlDel []).isPanicked = false := by
  exact ⟨rfl, rfl⟩

/-- C9 (amended): `Get` of both relational variants and `Del` of the
baseline variant decode the identifier with an unconditional 8-byte
little-endian read, panicking on every identifier shorter than 8 bytes
and never panicking on identifiers of length at least 8; `Del` of the
evolved variant never decodes and never panics. -/
theorem C9_short_identifier_panics (s : V1.DBState) (db : V2.DBState)
    (k : List Nat) :
    (k.length < 8 →
      V1.sqlGet s k = .panicked ∧ (V1.sqlDel s k).2 = .panicked ∧
      V2.sqlGet db k = .panicked) ∧
    (8 ≤ k.length →
      (V1.sqlGet s k).isPanicked = false ∧
      ((V1.sqlDel s k).2).isPanicked = false ∧
      (V2.sqlGet db k).isPanicked = false) ∧
    (V2.sqlDel k).isPanicked = false := by
  refine ⟨?_, ?_, rfl⟩
  · intro h
    have hn := leUint64_eq_none_of_short k h
    refine ⟨?_, ?_, ?_⟩
    · unfold V1.sqlGet
      rw [hn]
    · unfold V1.sqlDel
      rw [hn]
    · unfold V2.sqlGet
      rw [hn]
  · intro h
    obtain ⟨v, hv⟩ := leUint64_isSome_of_long k h
    refine ⟨?_, ?_, ?_⟩
    · unfold V1.sqlGet
      rw [hv]
      by_cases hf : s.failing = true
      · simp [hf, Outcome.isPanicked]
      · cases hl : lookupRow s.rows v <;> simp [hf, hl, Outcome.isPanicked]
    · unfold V1.sqlDel
      rw [hv]
      by_cases hf : s.failing = true <;> simp [hf, Outcome.isPanicked]
    · unfold V2.sqlGet
      rw [hv]
      by_cases hf : db.failing = true
      · simp [hf, Outcome.isPanicked]
      · cases hl : lookupRow db.rows v <;> simp [hf, hl, Outcome.isPanicked]

/-- C4 counterexample: on the evolved relational variant, `Get` of an
identifier matching zero rows (empty database, healthy engine) fails
with the plain error `no results returned`, not with an `ErrNotFound`
carrying the identifier, refuting the claim for that variant. -/
theorem C4_counterexample :
    V2.sqlGet { rows := [], failing := false } [0, 0, 0, 0, 0, 0, 0, 0] =
      .err (.genericMsg "no results returned") ∧
    isNotFoundErr
      (V2.sqlGet { rows := [], failing := false } [0, 0, 0, 0, 0, 0, 0, 0]) =
      false := by
  exact ⟨rfl, rfl⟩

/-- C4 (amended): on the baseline relational variant, a `Get` whose query
succeeds with zero rows fails with `ErrNotFound` carrying the queried
identifier, and after a successful `Del(id)` a `Get(id)` fails with
`ErrNotFound` carrying `id`; the evolved variant instead fails with the
plain error `no results returned`, which carries no identifier. -/
theorem C4_zero_rows_not_found (s : V1.DBState) (db : V2.DBState)
    (k : List Nat) (key : Nat) :
    (leUint64 k = some key → s.failing = false → lookupRow s.rows key = none →
      V1.sqlGet s k = .err (.notFound k)) ∧
    (s.failing = false → (V1.sqlDel s k).2 = .ok () →
      V1.sqlGet (V1.sqlDel s k).1 k = .err (.notFound k)) ∧
    (leUint64 k = some key → db.failing = false → lookupRow db.rows key = none →
      V2.sqlGet db k = .err (.genericMsg "no results returned")) := by
  refine ⟨?_, ?_, ?_⟩
  · intro hk hf hrow
    unfold V1.sqlGet
    rw [hk]
    simp [hf, hrow]
  · intro hf hdel
    cases hk : leUint64 k with
    | none =>
        unfold V1.sqlDel at hdel
        rw [hk] at hdel
        simp at hdel
    | some key2 =>
        unfold V1.sqlDel
        rw [hk]
        simp only [hf, Bool.false_eq_true, if_false]
        unfold V1.sqlGet
        rw [hk]
        have hlf := lookupRow_filter_ne s.rows key2
        simp only [ne_eq, decide_not] at hlf
        simp [hf, hlf]
  · intro hk hf hrow
    unfold V2.sqlGet
    rw [hk]
    simp [hf, hrow]

/-- Witness for C4 (amended): `Put` then `Del` then `Get` on a fresh
baseline store, and an evolved `Get` against an empty table. -/
theorem C4_zero_rows_not_found_witness :
    V1.sqlGet V1.freshDB [9, 0, 0, 0, 0, 0, 0, 0] =
      .err (.notFound [9, 0, 0, 0, 0, 0, 0, 0]) ∧
    V1.sqlGet (V1.sqlDel { rows := [(1, [42])], nextAuto := 2, failing := false }
        [1, 0, 0, 0, 0, 0, 0, 0]).1 [1, 0, 0, 0, 0, 0, 0, 0] =
      .err (.notFound [1, 0, 0, 0, 0, 0, 0, 0]) ∧
    V2.sqlGet { rows := [], failing := false } [9, 0, 0, 0, 0, 0, 0, 0] =
      .err (.genericMsg "no results returned") :=
  ⟨(C4_zero_rows_not_found V1.freshDB { rows := [], failing := false }
      [9, 0, 0, 0, 0, 0, 0, 0] 9).1 (by decide) rfl rfl,
   (C4_zero_rows_not_found { rows := [(1, [42])], nextAuto := 2, failing := false }
      { rows := [], failing := false } [1, 0, 0, 0, 0, 0, 0, 0] 1).2.1 rfl
      (by decide),
   (C4_zero_rows_not_found V1.freshDB { rows := [], failing := false }
      [9, 0, 0, 0, 0, 0, 0, 0] 9).2.2 (by decide) rfl rfl⟩

/-- C3: for every blob (the empty blob included), a successful `Put`
followed by `Get` of the returned identifier on the same store returns
exactly the stored bytes, on both relational variants.  For the baseline
variant the engine invariant is assumed: existing keys are below the
auto-increment cursor and the cursor fits 64 bits. -/
theorem C3_roundtrip (s : V1.DBState) (st : V2.Store) (db : V2.DBState)
    (data id1 id2 : List Nat) :
    ((∀ p ∈ s.rows, p.1 < s.nextAuto) → s.nextAuto < 2^64 →
      (V1.sqlPut s data).2 = .ok id1 →
      V1.sqlGet (V1.sqlPut s data).1 id1 = .ok data) ∧
    ((V2.sqlPut st db data).2.2 = .ok id2 →
      V2.sqlGet (V2.sqlPut st db data).2.1 id2 = .ok data) := by
  constructor
  · intro hinv h64 hok
    by_cases hf : s.failing = true
    · unfold V1.sqlPut at hok
      rw [if_pos hf] at hok
      simp at hok
    · unfold V1.sqlPut at hok ⊢
      rw [if_neg hf] at hok ⊢
      simp only at hok
      cases hok
      unfold V1.sqlGet
      rw [leUint64_putUint64LE, Nat.mod_eq_of_lt h64]
      simp only
      rw [if_neg hf]
      rw [lookupRow_append_self s.rows s.nextAuto data
        (lookupRow_eq_none_of_forall_ne s.rows s.nextAuto
          (fun p hp => Nat.ne_of_lt (hinv p hp)))]
  · intro hok
    obtain ⟨hid, hfl, hfresh, hrows, hfail⟩ := v2_sqlPut_ok st db data id2 hok
    have hleq : leUint64 id2 = some (leUint64D id2) := by
      rw [hid, leUint64D_mintID]
      exact leUint64_append_putUint32LE _ _
    have hrow2 : lookupRow (V2.sqlPut st db data).2.1.rows (leUint64D id2) =
        some data := by
      rw [hrows]
      exact lookupRow_append_self db.rows (leUint64D id2) data hfresh
    unfold V2.sqlGet
    rw [hleq]
    simp [hfail, hrow2]

/-- Witness for C3: round trip of the empty blob on both variants. -/
theorem C3_roundtrip_witness :
    V1.sqlGet (V1.sqlPut V1.freshDB []).1 (putUint64LE 1) = .ok [] ∧
    V2.sqlGet (V2.sqlPut { execID := 3, lastID := 0 }
        { rows := [], failing := false } []).2.1 (V2.mintID 3 1) = .ok [] :=
  ⟨(C3_roundtrip V1.freshDB { execID := 3, lastID := 0 }
      { rows := [], failing := false } [] (putUint64LE 1) (V2.mintID 3 1)).1
      (by simp [V1.freshDB]) (by decide) rfl,
   (C3_roundtrip V1.freshDB { execID := 3, lastID := 0 }
      { rows := [], failing := false } [] (putUint64LE 1) (V2.mintID 3 1)).2
      (by decide)⟩

/-- C1 counterexample: with `ServerExecID = 5`, the first `Put` of a
freshly constructed evolved store (the concrete scenario of the spec,
with a 32-byte payload) yields an identifier whose little-endian 64-bit
decoding is `5 + 1 * 2^32`: its high 32 bits hold the counter (1), not
the exec id, and its low 32 bits hold the exec id (5) — the opposite of
the claimed layout. -/
theorem C1_counterexample :
    (V2.sqlPut (V2.mkStore { DefaultTimeout := 0, ServerExecID := 5 })
        { rows := [], failing := false } (List.replicate 32 1)).2.2 =
      .ok (V2.mintID 5 1) ∧
    leUint64 (V2.mintID 5 1) = some (5 + 1 * 2^32) ∧
    (5 + 1 * 2^32) / 2^32 = 1 ∧ (5 + 1 * 2^32) % 2^32 = 5 ∧
    decide ((5 + 1 * 2^32) / 2^32 = 5 ∧ (5 + 1 * 2^32) % 2^32 = 1) = false := by
  refine ⟨by decide, by decide, by norm_num, by norm_num, by norm_num⟩

/-- C1 (amended): the evolved `Put` mints an 8-byte identifier whose
little-endian 64-bit decoding carries `ServerExecID` in the LOW 32 bits
and the per-process counter in the HIGH 32 bits; the first `Put` of a
freshly constructed store decodes to a low half equal to `ServerExecID`
and a high half equal to 1. -/
theorem C1_key_layout (st : V2.Store) (db : V2.DBState) (cfg : V2.Config)
    (data id id1 : List Nat) :
    ((V2.sqlPut st db data).2.2 = .ok id →
      id.length = 8 ∧
      leUint64 id = some (st.execID % 2^32 + (st.lastID + 1) % 2^32 * 2^32)) ∧
    (cfg.ServerExecID < 2^32 →
      (V2.sqlPut (V2.mkStore cfg) db data).2.2 = .ok id1 →
      leUint64 id1 = some (cfg.ServerExecID + 1 * 2^32) ∧
      (cfg.ServerExecID + 1 * 2^32) % 2^32 = cfg.ServerExecID ∧
      (cfg.ServerExecID + 1 * 2^32) / 2^32 = 1) := by
  constructor
  · intro hok
    obtain ⟨hid, -, -, -, -⟩ := v2_sqlPut_ok st db data id hok
    constructor
    · rw [hid]
      exact mintID_length _ _
    · rw [hid]
      unfold V2.mintID
      rw [leUint64_append_putUint32LE]
      simp only [Option.some.injEq]
      omega
  · intro he hok
    obtain ⟨hid, -, -, -, -⟩ := v2_sqlPut_ok (V2.mkStore cfg) db data id1 hok
    have h1 : leUint64 id1 =
        some (cfg.ServerExecID % 2^32 + 1 % 2^32 * 2^32) := by
      rw [hid]
      simp only [V2.mkStore]
      unfold V2.mintID
      rw [leUint64_append_putUint32LE]
      simp only [Option.some.injEq]
      omega
    refine ⟨?_, by omega, by omega⟩
    rw [h1]
    simp only [Option.some.injEq]
    omega

/-- Witness for C1 (amended): first `Put` with `ServerExecID = 6`. -/
theorem C1_key_layout_witness :
    leUint64 (V2.mintID 6 1) = some (6 + 1 * 2^32) ∧
    (6 + 1 * 2^32) % 2^32 = 6 ∧ (6 + 1 * 2^32) / 2^32 = 1 :=
  (C1_key_layout (V2.mkStore { DefaultTimeout := 0, ServerExecID := 6 })
    { rows := [], failing := false } { DefaultTimeout := 0, ServerExecID := 6 }
    [] (V2.mintID 6 1) (V2.mintID 6 1)).2 (by norm_num) (by decide)

/-- C2: identifiers yielded by any sequence of `Put` calls on one evolved
store (concurrent calls taken in their linearization order) are pairwise
distinct — a would-be duplicate key (e.g. after counter wrap-around) is
rejected by the primary-key constraint and yields no identifier — and
every successful `Put` returns the minted identifier, while identifiers
minted under distinct 32-bit `ServerExecID` values are never equal, even
with equal counters. -/
theorem C2_key_uniqueness (st : V2.Store) (db : V2.DBState)
    (datas : List (List Nat)) (e1 e2 c1 c2 : Nat) :
    List.Pairwise (fun a b => a ≠ b) (V2.putSeqOut st db datas).2.2 ∧
    (∀ data id, (V2.sqlPut st db data).2.2 = .ok id →
      id = V2.mintID st.execID ((st.lastID + 1) % 2^32)) ∧
    (e1 < 2^32 → e2 < 2^32 → e1 ≠ e2 → V2.mintID e1 c1 ≠ V2.mintID e2 c2) := by
  refine ⟨(v2_putSeqOut_ids_fresh datas st db).2, ?_,
    mintID_ne_of_execID_ne e1 e2 c1 c2⟩
  intro data id hok
  exact (v2_sqlPut_ok st db data id hok).1

/-- Witness for C2: a two-call sequence on a fresh store and two distinct
exec ids with equal counters. -/
theorem C2_key_uniqueness_witness :
    List.Pairwise (fun a b => a ≠ b)
      (V2.putSeqOut { execID := 7, lastID := 0 } { rows := [], failing := false }
        [[1], [2]]).2.2 ∧
    V2.mintID 1 5 ≠ V2.mintID 2 5 :=
  ⟨(C2_key_uniqueness { execID := 7, lastID := 0 } { rows := [], failing := false }
      [[1], [2]] 1 2 5 5).1,
   (C2_key_uniqueness { execID := 7, lastID := 0 } { rows := [], failing := false }
      [[1], [2]] 1 2 5 5).2.2 (by decide) (by decide) (by decide)⟩

/-- C10 counterexample: the 32-bit counter wraps.  A first `Put` against
a failing engine consumes counter value 1; after 2^32 - 1 further `Put`
calls, the next `Put` consumes counter value 1 again — the value consumed
by the failed `Put` is reissued, refuting the unbounded `never`. -/
theorem C10_counterexample :
    (V2.sqlPut { execID := 7, lastID := 0 } { rows := [], failing := true }
        []).2.2 = .err (.dbFail "exec failed") ∧
    (V2.sqlPut { execID := 7, lastID := 0 } { rows := [], failing := true }
        []).1.lastID = 1 ∧
    (V2.sqlPut
        (V2.putSeqOut { execID := 7, lastID := 1 } { rows := [], failing := true }
          (List.replicate (2^32 - 1) [])).1
        (V2.putSeqOut { execID := 7, lastID := 1 } { rows := [], failing := true }
          (List.replicate (2^32 - 1) [])).2.1
        []).1.lastID = 1 ∧
    (V2.sqlPut { execID := 7, lastID := 0 } { rows := [], failing := true } []).1 =
      { execID := 7, lastID := 1 } := by
  refine ⟨rfl, rfl, ?_, rfl⟩
  exact v2_wrap_consumes_again { execID := 7, lastID := 1 }
    { rows := [], failing := true } (List.replicate (2^32 - 1) []) [] rfl
    (List.length_replicate (2^32 - 1) [])

/-- C10 (amended): every evolved `Put` advances the in-memory counter
exactly once (before the insert), including calls failing with a database
error, which leave the database untouched but the counter advanced; a
counter value consumed by a failed `Put` is therefore not consumed again
within the following 2^32 - 1 calls (the 32-bit counter wraps after 2^32
increments). -/
theorem C10_counter_not_rolled_back (st : V2.Store) (db : V2.DBState)
    (data d2 : List Nat) (later : List (List Nat)) :
    (V2.sqlPut st db data).1.lastID = (st.lastID + 1) % 2^32 ∧
    (db.failing = true →
      (V2.sqlPut st db data).2.2 = .err (.dbFail "exec failed") ∧
      (V2.sqlPut st db data).2.1 = db) ∧
    (later.length + 1 < 2^32 →
      (V2.sqlPut
          (V2.putSeqOut (V2.sqlPut st db data).1 (V2.sqlPut st db data).2.1
            later).1
          (V2.putSeqOut (V2.sqlPut st db data).1 (V2.sqlPut st db data).2.1
            later).2.1
          d2).1.lastID ≠ (V2.sqlPut st db data).1.lastID) := by
  have hput := congrArg V2.Store.lastID (v2_sqlPut_fst st db data)
  dsimp only at hput
  refine ⟨hput, ?_, ?_⟩
  · intro hfail
    constructor
    · unfold V2.sqlPut
      rw [if_pos hfail]
    · unfold V2.sqlPut
      rw [if_pos hfail]
  · intro hlen
    have hlt : (V2.sqlPut st db data).1.lastID < 2^32 := by
      rw [hput]
      exact Nat.mod_lt _ (by norm_num)
    obtain ⟨-, hsl⟩ := v2_putSeqOut_fst later (V2.sqlPut st db data).1
      (V2.sqlPut st db data).2.1 hlt
    have hfin := congrArg V2.Store.lastID
      (v2_sqlPut_fst
        (V2.putSeqOut (V2.sqlPut st db data).1 (V2.sqlPut st db data).2.1
          later).1
        (V2.putSeqOut (V2.sqlPut st db data).1 (V2.sqlPut st db data).2.1
          later).2.1
        d2)
    dsimp only at hfin
    rw [hfin, hsl, hput]
    omega

/-- Witness for C10 (amended): a failed `Put` against a failing engine,
followed immediately (empty chain) by another call. -/
theorem C10_counter_not_rolled_back_witness :
    (V2.sqlPut { execID := 7, lastID := 0 } { rows := [], failing := true }
        []).1.lastID = (0 + 1) % 2^32 ∧
    (V2.sqlPut { execID := 7, lastID := 0 } { rows := [], failing := true }
        []).2.2 = .err (.dbFail "exec failed") ∧
    (V2.sqlPut
        (V2.putSeqOut
          (V2.sqlPut { execID := 7, lastID := 0 } { rows := [], failing := true }
            []).1
          (V2.sqlPut { execID := 7, lastID := 0 } { rows := [], failing := true }
            []).2.1 []).1
        (V2.putSeqOut
          (V2.sqlPut { execID := 7, lastID := 0 } { rows := [], failing := true }
            []).1
          (V2.sqlPut { execID := 7, lastID := 0 } { rows := [], failing := true }
            []).2.1 []).2.1
        []).1.lastID ≠
      (V2.sqlPut { execID := 7, lastID := 0 } { rows := [], failing := true }
        []).1.lastID :=
  ⟨(C10_counter_not_rolled_back { execID := 7, lastID := 0 }
      { rows := [], failing := true } [] [] []).1,
   ((C10_counter_not_rolled_back { execID := 7, lastID := 0 }
      { rows := [], failing := true } [] [] []).2.1 rfl).1,
   (C10_counter_not_rolled_back { execID := 7, lastID := 0 }
      { rows := [], failing := true } [] [] []).2.2 (by norm_num)⟩

/-- C6 counterexample: a delivery sequence with two non-nil events makes
the listener record the cid of the second event and then panic closing
the already-closed latch — the latch is not signalled exactly once for
every sequence, and the recorded identifier is not from the first
event. -/
theorem C6_counterexample :
    IPFS.listenerRun [some { cid := 1 }, some { cid := 2 }] =
      { id := some 2, gotCidClosed := true, panicked := true } := by
  rfl

/-- C6 (amended): a `nil` event never changes the listener state (it is
non-final and draining continues); for every delivery sequence with at
most one non-nil event the listener never panics, signals the completion
latch exactly once if and only if a non-nil event arrives, and records
the content identifier of the first (only) non-nil event; a second
non-nil event instead panics re-closing the latch. -/
theorem C6_listener_latch (evs : List (Option IPFS.AddedOutput))
    (st : IPFS.ListenerState) :
    IPFS.listenerStep st none = st ∧
    (IPFS.countSome evs ≤ 1 →
      (IPFS.listenerRun evs).panicked = false ∧
      ((IPFS.listenerRun evs).gotCidClosed = true ↔ IPFS.countSome evs = 1) ∧
      (IPFS.listenerRun evs).id =
        (IPFS.firstSome evs).map IPFS.AddedOutput.cid) := by
  refine ⟨listenerStep_none st, ?_⟩
  induction evs with
  | nil =>
      intro h
      refine ⟨rfl, ?_, rfl⟩
      simp [IPFS.listenerRun, IPFS.listenerInit, IPFS.countSome]
  | cons e rest ih =>
      intro h
      cases e with
      | none =>
          have hrun : IPFS.listenerRun (none :: rest) = IPFS.listenerRun rest := by
            unfold IPFS.listenerRun
            simp only [List.foldl_cons, listenerStep_none]
          have hcnt := countSome_cons_none rest
          rw [hrun, hcnt]
          rw [hcnt] at h
          have hfst : IPFS.firstSome (none :: rest) = IPFS.firstSome rest := rfl
          rw [hfst]
          exact ih h
      | some a =>
          have hcnt := countSome_cons_some a rest
          rw [hcnt] at h
          have h0 : IPFS.countSome rest = 0 := by omega
          have hall := all_none_of_countSome_zero rest h0
          have hrun : IPFS.listenerRun (some a :: rest) =
              { id := some a.cid, gotCidClosed := true, panicked := false } := by
            unfold IPFS.listenerRun
            rw [List.foldl_cons]
            exact listener_foldl_all_none rest hall _
          rw [hrun, hcnt, h0]
          exact ⟨rfl, by simp, rfl⟩

/-- Witness for C6 (amended): one non-nil event between two nil events. -/
theorem C6_listener_latch_witness :
    (IPFS.listenerRun [none, some { cid := 7 }, none]).panicked = false ∧
    ((IPFS.listenerRun [none, some { cid := 7 }, none]).gotCidClosed = true ↔
      IPFS.countSome [none, some { cid := 7 }, none] = 1) ∧
    (IPFS.listenerRun [none, some { cid := 7 }, none]).id =
      (IPFS.firstSome [none, some { cid := 7 }, none]).map IPFS.AddedOutput.cid :=
  (C6_listener_latch [none, some { cid := 7 }, none] IPFS.listenerInit).2
    (by decide)

/-- Witness for C9 (amended) at concrete states and identifiers. -/
theorem C9_short_identifier_panics_witness :
    (V1.sqlGet V1.freshDB [1, 2, 3] = .panicked ∧
      (V1.sqlDel V1.freshDB [1, 2, 3]).2 = .panicked ∧
      V2.sqlGet { rows := [], failing := false } [1, 2, 3] = .panicked) ∧
    (V1.sqlGet V1.freshDB [1, 2, 3, 4, 5, 6, 7, 8]).isPanicked = false :=
  ⟨(C9_short_identifier_panics V1.freshDB { rows := [], failing := false }
      [1, 2, 3]).1 (by decide),
   ((C9_short_identifier_panics V1.freshDB { rows := [], failing := false }
      [1, 2, 3, 4, 5, 6, 7, 8]).2.1 (by decide)).1⟩

end IpfsBlob
